import Mathlib

/-!
Shallow embedding of the weather-cache backend (src/backend/main.py).

The service is a thin TTL cache over a document store (Elasticsearch).
Modelling choices:
  * UTC instants are integer microseconds since the epoch (Python
    `datetime` stores timestamps with exactly microsecond resolution);
    the real-valued number of seconds produced by
    `timedelta.total_seconds()` is recovered as the rational
    `ageSeconds`, and the Python `int()` conversion of it is truncation
    toward zero, `pyIntSec`;
  * the document store is an association list from document id to record;
  * the read path of `check_cache` is driven by a `ReadResult` describing
    what the call `es_client.get(...)` (plus the timestamp parse)
    produced: a clean miss, a found well-formed document, or a raised
    exception (connectivity failure, malformed timestamp, ...);
  * the write path of `write_cache` takes an optional store fault;
  * the tracer is an oracle giving, for the n-th tracer call of a
    request, whether that call raises and with what message, so the
    exception flow of the Python `try`/`except` blocks can be replayed.
-/

namespace WeatherCache

/-- Microseconds per second: `datetime` arithmetic has exactly this resolution. -/
def USEC : ℤ := 1000000

/-- The fixed TTL of the cache in seconds (`age_seconds < 3600` in the source). -/
def TTL : ℚ := 3600

/-- The age of a record, in (real-valued) seconds, as computed at line 128:
`(datetime.now(timezone.utc) - cache_time).total_seconds()`. -/
def ageSeconds (d : ℤ) : ℚ := (d : ℚ) / (USEC : ℚ)

/-- Python `int()` applied to the real-valued age of `d` microseconds:
truncation toward zero (`Int.tdiv` is integer division rounding toward zero). -/
def pyIntSec (d : ℤ) : ℤ := Int.tdiv d USEC

/-- Document id derivation from line 115 / line 171 of the source:
`city.lower().replace(" ", "-")`.  Since the replaced pattern is the single
character `" "`, the composition is character-wise: each character is
lower-cased and each space becomes a hyphen. -/
def canonicalKey (city : String) : String :=
  ⟨city.data.map (fun c => if c = ' ' then '-' else c.toLower)⟩

/-- A stored cache document, as built by `write_cache` (lines 172-176):
the display city, the opaque weather payload, and the `timestamp` field
(the UTC instant of the write, in microseconds since the epoch). -/
structure CacheRecord (α : Type) where
  city : String
  weather : α
  timestamp : ℤ
deriving DecidableEq, Repr

/-- The document store: association list from document id to record. -/
def Store (α : Type) : Type := List (String × CacheRecord α)

/-- Lookup by document id (`es_client.get(index=..., id=doc_id)`). -/
def storeGet {α : Type} (store : Store α) (key : String) : Option (CacheRecord α) :=
  (List.find? (fun p => p.1 == key) store).map Prod.snd

/-- Upsert by document id (`es_client.index(index=..., id=doc_id, document=...)`):
the new document fully replaces any record at that id. -/
def storePut {α : Type} (store : Store α) (key : String) (rec : CacheRecord α) :
    Store α :=
  (key, rec) :: List.filter (fun p => p.1 != key) store

/-- What the read `es_client.get(..., ignore=[404])` plus the timestamp parse
produced: a clean not-found signal, a found (well-formed) document, or a
raised exception carrying the exception class name (used at line 154). -/
inductive ReadResult (α : Type) where
  | notFound : ReadResult α
  | found (rec : CacheRecord α) : ReadResult α
  | fault (ename : String) : ReadResult α
deriving DecidableEq, Repr

/-- The JSON body returned by the check endpoint: `cached`, `data`,
optional `reason`, optional `age_seconds`. -/
structure CheckResponse (α : Type) where
  cached : Bool
  data : Option α
  reason : Option String
  age_seconds : Option ℤ
deriving DecidableEq, Repr

/-- Response `{"cached": False, "data": None, "reason": "cache_disabled"}` (line 108). -/
def cacheDisabledResp {α : Type} : CheckResponse α := ⟨false, none, some "cache_disabled", none⟩

/-- Response `{"cached": False, "data": None, "reason": "not_found"}` (line 124). -/
def notFoundResp {α : Type} : CheckResponse α := ⟨false, none, some "not_found", none⟩

/-- Response `{"cached": False, "data": None, "reason": "error"}` (line 156). -/
def errorResp {α : Type} : CheckResponse α := ⟨false, none, some "error", none⟩

/-- Response for a fresh hit (lines 138-142). -/
def freshResp {α : Type} (w : α) (age : ℤ) : CheckResponse α := ⟨true, some w, none, some age⟩

/-- Response for a stale record (lines 144-149). -/
def expiredResp {α : Type} (age : ℤ) : CheckResponse α := ⟨false, none, some "expired", some age⟩

/-- Freshness test of line 129, `is_fresh = age_seconds < 3600`, expressed on
the microsecond age (`d < 3600 * USEC` iff `ageSeconds d < 3600`, proved below). -/
def isFresh (d : ℤ) : Bool := d < 3600 * USEC

/-- The business result of `check_cache` (lines 104-156), given whether the
store client is configured, what the read produced, and the current UTC
instant in microseconds.  Faithful to the source: the `except` branch turns
any read fault into the `"error"` miss response; a found document is fresh
iff `age_seconds < 3600`; the `age_seconds` field of the response is
`int(age_seconds)`, i.e. truncation toward zero. -/
def check_cache {α : Type} (cfg : Bool) (read : ReadResult α) (now : ℤ) :
    CheckResponse α :=
  if cfg = false then cacheDisabledResp
  else
    match read with
    | .notFound => notFoundResp
    | .fault _ => errorResp
    | .found rec =>
        let d := now - rec.timestamp
        if isFresh d then freshResp rec.weather (pyIntSec d)
        else expiredResp (pyIntSec d)

/-- The `ReadResult` that a fault-free store produces for a query city:
the document id is derived from the city (line 115) and looked up. -/
def storeRead {α : Type} (store : Store α) (city : String) : ReadResult α :=
  match storeGet store (canonicalKey city) with
  | none => ReadResult.notFound
  | some rec => ReadResult.found rec

/-- `check_cache` against an explicit store with no read fault. -/
def check_cache_store {α : Type} (cfg : Bool) (store : Store α) (now : ℤ)
    (city : String) : CheckResponse α :=
  check_cache cfg (storeRead store city) now

/-- The HTTP-level result of the write endpoint: the success body
`{"success": True, "city": city}` or a raised `HTTPException(status, detail)`. -/
inductive WriteResult where
  | success (city : String) : WriteResult
  | httpError (status : ℕ) (detail : String) : WriteResult
deriving DecidableEq, Repr

/-- The business result of `write_cache` (lines 160-188): 503 when the store
client is not configured (lines 163-164); otherwise the document
`{city, weather, timestamp := now}` is upserted at the canonical key
(lines 171-178) and the success body returned, unless the store rejects the
write (`fault = some msg`), in which case `HTTPException(500, "Cache write
failed: " + msg)` is raised (line 188) and the store is unchanged.
Returns the result together with the resulting store state. -/
def write_cache {α : Type} (cfg : Bool) (store : Store α) (fault : Option String)
    (now : ℤ) (city : String) (w : α) : WriteResult × Store α :=
  if cfg = false then (.httpError 503 "Cache not configured", store)
  else
    match fault with
    | some msg => (.httpError 500 ("Cache write failed: " ++ msg), store)
    | none => (.success city, storePut store (canonicalKey city) ⟨city, w, now⟩)

/-- A span attribute value: the source sets string, boolean and integer
valued attributes. -/
inductive AttrVal where
  | s (v : String) : AttrVal
  | b (v : Bool) : AttrVal
  | i (v : ℤ) : AttrVal
deriving DecidableEq, Repr

/-- The attributes set on the `cache.check` span during one check operation,
in source order, assuming the tracer calls succeed.  Lines 111-112 set the
backend and the key on every traced check; lines 121-122 set
`cache.hit = False` and `cache.miss_reason = "not_found"` on a clean miss;
lines 131-133 set `cache.hit = True`, `cache.age_seconds` and `cache.fresh`
whenever a document was found — also when it is already expired; lines
153-154 set `cache.hit = False` and `cache.error` on a read fault.  When the
store client is not configured no span is started (line 107 returns first). -/
def check_attrs {α : Type} (cfg : Bool) (read : ReadResult α) (now : ℤ)
    (city : String) : List (String × AttrVal) :=
  if cfg = false then []
  else
    ("cache.backend", AttrVal.s "elasticsearch") :: ("cache.key", AttrVal.s city) ::
    match read with
    | .notFound => [("cache.hit", AttrVal.b false), ("cache.miss_reason", AttrVal.s "not_found")]
    | .fault ename => [("cache.hit", AttrVal.b false), ("cache.error", AttrVal.s ename)]
    | .found rec =>
        let d := now - rec.timestamp
        [("cache.hit", AttrVal.b true), ("cache.age_seconds", AttrVal.i (pyIntSec d)),
         ("cache.fresh", AttrVal.b (isFresh d))]

/-- A tracer behaviour: for the n-th tracer call made while handling one
request (span creation or attribute setting, in source order), `tr n = none`
means the call succeeds and `tr n = some msg` means it raises an exception
whose `str(e)` is `msg`. -/
def TracerOracle : Type := ℕ → Option String

/-- The tracer behaviour in which every tracer call succeeds (the behaviour
the OpenTelemetry API promises). -/
def noTracerFault : TracerOracle := fun _ => none

/-- Whether the n-th tracer call of the request raises. -/
def callRaises (tr : TracerOracle) (n : ℕ) : Bool := (tr n).isSome

/-- The `except` block of `check_cache` (lines 151-156), entered after `j`
tracer calls have already been made: it performs two further tracer calls
(`cache.hit`, `cache.error`); an exception raised by either of them
propagates out of the handler, otherwise the `"error"` body is returned. -/
def checkExceptBlock {α : Type} (tr : TracerOracle) (j : ℕ) :
    Except Unit (CheckResponse α) :=
  if callRaises tr j then .error ()
  else if callRaises tr (j + 1) then .error ()
  else .ok errorResp

/-- `check_cache` with the Python exception flow of tracer calls replayed
against a tracer behaviour.  `Except.error ()` is an exception escaping the
handler (the request fails); `Except.ok r` is the normal JSON body `r`.
Call sites in source order: span creation (line 110), backend and key
attributes (lines 111-112, outside the `try`, so an exception there
propagates), then inside the `try` the outcome attributes (lines 121-122 or
131-133, where an exception is caught by the `except` at line 151). -/
def check_cache_traced {α : Type} (tr : TracerOracle) (cfg : Bool)
    (read : ReadResult α) (now : ℤ) : Except Unit (CheckResponse α) :=
  if cfg = false then .ok cacheDisabledResp
  else if callRaises tr 0 then .error ()
  else if callRaises tr 1 then .error ()
  else if callRaises tr 2 then .error ()
  else
    match read with
    | .fault _ => checkExceptBlock tr 3
    | .notFound =>
        if callRaises tr 3 then checkExceptBlock tr 4
        else if callRaises tr 4 then checkExceptBlock tr 5
        else .ok notFoundResp
    | .found rec =>
        let d := now - rec.timestamp
        if callRaises tr 3 then checkExceptBlock tr 4
        else if callRaises tr 4 then checkExceptBlock tr 5
        else if callRaises tr 5 then checkExceptBlock tr 6
        else .ok (if isFresh d then freshResp rec.weather (pyIntSec d)
                  else expiredResp (pyIntSec d))

/-- `write_cache` with the Python exception flow of tracer calls replayed
against a tracer behaviour.  Call sites in source order: span creation
(line 166), backend and key attributes (lines 167-168, outside the `try`),
the success attribute (line 179, inside the `try`: if it raises after the
document was indexed, the `except` block at lines 184-188 runs and converts
the tracer exception into the 500 response while the store keeps the new
document), and the two attribute calls of the `except` block (lines
185-186), whose own exceptions propagate. -/
def write_cache_traced {α : Type} (tr : TracerOracle) (cfg : Bool)
    (store : Store α) (fault : Option String) (now : ℤ) (city : String) (w : α) :
    Except Unit (WriteResult × Store α) :=
  if cfg = false then .ok (.httpError 503 "Cache not configured", store)
  else if callRaises tr 0 then .error ()
  else if callRaises tr 1 then .error ()
  else if callRaises tr 2 then .error ()
  else
    match fault with
    | some msg =>
        if callRaises tr 3 then .error ()
        else if callRaises tr 4 then .error ()
        else .ok (.httpError 500 ("Cache write failed: " ++ msg), store)
    | none =>
        let store2 := storePut store (canonicalKey city) ⟨city, w, now⟩
        match tr 3 with
        | some msg =>
            if callRaises tr 4 then .error ()
            else if callRaises tr 5 then .error ()
            else .ok (.httpError 500 ("Cache write failed: " ++ msg), store2)
        | none => .ok (.success city, store2)

/-! Helper lemmas about the time arithmetic and the store. -/

lemma usec_eq : USEC = 1000000 := rfl

lemma pyIntSec_eq (d : ℤ) : pyIntSec d = if 0 ≤ d then d / 1000000 else -((-d) / 1000000) := by
  rcases le_or_lt 0 d with h | h
  · rw [pyIntSec, usec_eq, Int.tdiv_eq_ediv h (by decide), if_pos h]
  · have h2 : pyIntSec d = -((-d).tdiv USEC) := by
      rw [pyIntSec, ← Int.neg_tdiv, Int.neg_neg]
    rw [h2, usec_eq, Int.tdiv_eq_ediv (by omega) (by decide), if_neg (by omega)]

lemma floor_ageSeconds (d : ℤ) : ⌊ageSeconds d⌋ = d / 1000000 := by
  have h : ageSeconds d = (d : ℚ) / ((1000000 : ℕ) : ℚ) := by
    simp [ageSeconds, USEC]
  rw [h, Rat.floor_intCast_div_natCast]
  norm_num

lemma pyIntSec_eq_floor_of_nonneg {d : ℤ} (h : 0 ≤ d) : pyIntSec d = ⌊ageSeconds d⌋ := by
  rw [floor_ageSeconds, pyIntSec_eq, if_pos h]

lemma pyIntSec_eq_floor_of_dvd {d : ℤ} (h : USEC ∣ d) : pyIntSec d = ⌊ageSeconds d⌋ := by
  rw [usec_eq] at h
  rw [floor_ageSeconds, pyIntSec_eq]
  split <;> omega

lemma pyIntSec_ne_floor_of_neg_not_dvd {d : ℤ} (hd : d < 0) (hnd : ¬ USEC ∣ d) :
    pyIntSec d = ⌊ageSeconds d⌋ + 1 := by
  rw [usec_eq] at hnd
  rw [floor_ageSeconds, pyIntSec_eq, if_neg (by omega)]
  omega

lemma pyIntSec_nonpos_of_nonpos {d : ℤ} (hd : d ≤ 0) : pyIntSec d ≤ 0 := by
  rw [pyIntSec_eq]
  split <;> omega

lemma pyIntSec_neg_iff {d : ℤ} : pyIntSec d < 0 ↔ d ≤ -USEC := by
  rw [pyIntSec_eq, usec_eq]
  split <;> omega

lemma isFresh_iff (d : ℤ) : isFresh d = true ↔ ageSeconds d < TTL := by
  simp only [isFresh, decide_eq_true_eq, ageSeconds, TTL, usec_eq]
  rw [div_lt_iff₀ (by norm_num)]
  constructor
  · intro h
    calc (d:ℚ) < ((3600 * 1000000 : ℤ) : ℚ) := by exact_mod_cast h
      _ = 3600 * ((1000000 : ℤ) : ℚ) := by push_cast; ring
      _ = 3600 * (((USEC : ℤ) : ℚ)) := by rw [usec_eq]
  · intro h
    have h2 : ((d : ℤ) : ℚ) < ((3600 * 1000000 : ℤ) : ℚ) := by
      calc ((d:ℤ):ℚ) < 3600 * (((USEC : ℤ) : ℚ)) := h
        _ = ((3600 * 1000000 : ℤ) : ℚ) := by rw [usec_eq]; push_cast; ring
    exact_mod_cast h2

lemma storeGet_storePut_self {α : Type} (s : Store α) (k : String) (r : CacheRecord α) :
    storeGet (storePut s k r) k = some r := by
  simp [storeGet, storePut, List.find?]

/-! Claim theorems. -/

/-- C1 (amended): for every record found by check, with age in seconds equal
to `ageSeconds (now - storedAt)`: if the age is below the 3600-second TTL the
response is `{cached:true, data:weather, age_seconds:int(age)}`, and otherwise
`{cached:false, data:null, reason:"expired", age_seconds:int(age)}`, where
`int(age)` is truncation toward zero; truncation agrees with the floor claimed
by the spec whenever the age is nonnegative (in particular on the whole
expired branch and on the 3599-second and 3601-second boundary cases), and the
microsecond-level freshness guard is exactly the `age < 3600` seconds test. -/
theorem check_found_fresh_expired {α : Type} (w : α) (city : String) (ts now : ℤ) :
    (isFresh (now - ts) = true →
      check_cache true (ReadResult.found ⟨city, w, ts⟩) now = freshResp w (pyIntSec (now - ts)))
    ∧ (isFresh (now - ts) = false →
      check_cache true (ReadResult.found ⟨city, w, ts⟩) now = expiredResp (pyIntSec (now - ts)))
    ∧ (isFresh (now - ts) = true ↔ ageSeconds (now - ts) < TTL)
    ∧ (0 ≤ now - ts → pyIntSec (now - ts) = ⌊ageSeconds (now - ts)⌋) := by
  refine ⟨?_, ?_, isFresh_iff _, fun h => pyIntSec_eq_floor_of_nonneg h⟩
  · intro h; simp [check_cache, h]
  · intro h; simp [check_cache, h]

/-- C1 witness: the freshness boundary of the claim, at a record stored 3599
seconds in the past (a fresh hit) and one stored 3601 seconds in the past
(an expired miss). -/
theorem check_found_fresh_expired_witness :
    check_cache true (ReadResult.found ⟨"paris", (42:ℕ), 0⟩) (3599 * USEC) = freshResp 42 3599
    ∧ check_cache true (ReadResult.found ⟨"paris", (42:ℕ), 0⟩) (3601 * USEC) = expiredResp 3601 :=
  ⟨((check_found_fresh_expired 42 "paris" 0 (3599 * USEC)).1 (by decide)).trans (by decide),
   ((check_found_fresh_expired 42 "paris" 0 (3601 * USEC)).2.1 (by decide)).trans (by decide)⟩

/-- C1 counterexample: for a record stored 1.5 seconds in the future the code
returns `age_seconds = -1` (truncation toward zero), while the claim demands
`floor(age) = -2`; so the claim as stated fails on this input. -/
theorem check_floor_counterexample :
    check_cache true (ReadResult.found ⟨"lagos", (7:ℕ), 1500000⟩) 0 = freshResp 7 (-1)
    ∧ ⌊ageSeconds (0 - 1500000)⌋ = -2
    ∧ ((-1 : ℤ) ≠ -2) := by
  refine ⟨by decide, ?_, by decide⟩
  rw [floor_ageSeconds]; decide

/-- C2: for all city strings that normalize to the same canonical key
(lowercase, spaces to hyphens), writing a payload under the first and then
checking under the second within the TTL, with no intervening write, returns
that same cached payload; both operations derive the document id by the one
`canonicalKey` rule. -/
theorem write_then_check_same_key {α : Type} (store : Store α) (t now : ℤ)
    (c1 c2 : String) (w : α)
    (hkey : canonicalKey c1 = canonicalKey c2)
    (hfresh : isFresh (now - t) = true) :
    check_cache_store true (write_cache true store none t c1 w).2 now c2
      = freshResp w (pyIntSec (now - t)) := by
  have hw : (write_cache true store none t c1 w).2
      = storePut store (canonicalKey c1) ⟨c1, w, t⟩ := by
    simp [write_cache]
  rw [check_cache_store, storeRead, hw, ← hkey, storeGet_storePut_self]
  simp [check_cache, hfresh]

/-- C2 witness: write under "New York", check under "new york" ten seconds
later: the cached payload comes back as a fresh hit. -/
theorem write_then_check_same_key_witness :
    check_cache_store true (write_cache true ([] : Store ℕ) none 0 "New York" 72).2
      (10 * USEC) "new york" = freshResp 72 10 :=
  (write_then_check_same_key [] 0 (10 * USEC) "New York" "new york" 72
    (by decide) (by decide)).trans (by decide)

/-- C3: for every store fault on the read path other than a clean not-found
signal (connectivity failure, malformed stored timestamp, ...), check does
not propagate a failure to the caller: the result is the normal
`{cached:false, data:null, reason:"error"}` body, never a thrown error —
also in the traced model, where the `except` block absorbs the fault
(under the non-raising tracer behaviour the tracing API guarantees). -/
theorem check_read_fault_absorbed {α : Type} (ename : String) (now : ℤ) :
    check_cache (α := α) true (ReadResult.fault ename) now = errorResp
    ∧ check_cache_traced (α := α) noTracerFault true (ReadResult.fault ename) now
        = Except.ok errorResp := by
  constructor
  · simp [check_cache]
  · simp [check_cache_traced, callRaises, noTracerFault, checkExceptBlock]

/-- C4: write fails with `HTTPException(503, "Cache not configured")` exactly
when the store is not configured; when the configured store rejects the write
it fails with `HTTPException(500, "Cache write failed: <msg>")` carrying the
underlying fault description; and otherwise it succeeds — these three cases
are exhaustive, so they are the only failure modes of write. -/
theorem write_failure_modes {α : Type} (cfg : Bool) (store : Store α)
    (fault : Option String) (now : ℤ) (city : String) (w : α) :
    ((write_cache cfg store fault now city w).1 = WriteResult.success city
        ∧ cfg = true ∧ fault = none)
    ∨ ((write_cache cfg store fault now city w).1
        = WriteResult.httpError 503 "Cache not configured" ∧ cfg = false)
    ∨ (∃ msg, (write_cache cfg store fault now city w).1
        = WriteResult.httpError 500 ("Cache write failed: " ++ msg)
        ∧ cfg = true ∧ fault = some msg) := by
  cases cfg
  · right; left; simp [write_cache]
  · cases fault with
    | none => left; simp [write_cache]
    | some msg => right; right; exact ⟨msg, by simp [write_cache]⟩

/-- C5: a successful write stores the record `{city, weather, storedAt = now}`
at the canonical key, fully replacing any existing record there, and returns
the success body; writing the same city and payload twice yields two successes,
after which the store holds exactly the record of the second write and a
subsequent fresh check returns the payload with the age of the second write. -/
theorem write_upsert_replaces {α : Type} (store : Store α) (t1 t2 now : ℤ)
    (city : String) (w : α) (hfresh : isFresh (now - t2) = true) :
    (write_cache true store none t1 city w).1 = WriteResult.success city
    ∧ storeGet (write_cache true store none t1 city w).2 (canonicalKey city)
        = some ⟨city, w, t1⟩
    ∧ (write_cache true (write_cache true store none t1 city w).2 none t2 city w).1
        = WriteResult.success city
    ∧ storeGet (write_cache true (write_cache true store none t1 city w).2 none t2 city w).2
        (canonicalKey city) = some ⟨city, w, t2⟩
    ∧ check_cache_store true
        (write_cache true (write_cache true store none t1 city w).2 none t2 city w).2 now city
        = freshResp w (pyIntSec (now - t2)) := by
  have hw1 : (write_cache true store none t1 city w).2
      = storePut store (canonicalKey city) ⟨city, w, t1⟩ := by simp [write_cache]
  have hw2 : (write_cache true (write_cache true store none t1 city w).2 none t2 city w).2
      = storePut (write_cache true store none t1 city w).2 (canonicalKey city)
          ⟨city, w, t2⟩ := by simp [write_cache]
  refine ⟨by simp [write_cache], ?_, by simp [write_cache], ?_, ?_⟩
  · rw [hw1, storeGet_storePut_self]
  · rw [hw2, storeGet_storePut_self]
  · rw [check_cache_store, storeRead, hw2, storeGet_storePut_self]
    simp [check_cache, hfresh]

/-- C5 witness: over a store with an unrelated pre-existing document, write
"Oslo" twice (at 0s and at 5s) and check at 6s: the check returns the payload
with the one-second age of the second write. -/
theorem write_upsert_replaces_witness :
    check_cache_store true
      (write_cache true (write_cache true ([("x", ⟨"x", 1, 0⟩)] : Store ℕ) none 0 "Oslo" 5).2
        none (5 * USEC) "Oslo" 5).2 (6 * USEC) "Oslo"
      = freshResp 5 1 :=
  ((write_upsert_replaces [("x", ⟨"x", 1, 0⟩)] 0 (5 * USEC) (6 * USEC) "Oslo" 5
      (by decide)).2.2.2.2).trans (by decide)

/-- C6: when the store is not configured, every check returns
`{cached:false, data:null, reason:"cache_disabled"}` and its result does not
depend on what any store read would have produced (no store call is made),
and every write fails with the 503 unavailable error. -/
theorem disabled_mode {α : Type} (read read2 : ReadResult α) (now : ℤ)
    (store : Store α) (fault : Option String) (t : ℤ) (city : String) (w : α) :
    check_cache false read now = cacheDisabledResp
    ∧ check_cache false read now = check_cache false read2 now
    ∧ (write_cache false store fault t city w).1
        = WriteResult.httpError 503 "Cache not configured" := by
  refine ⟨by simp [check_cache], by simp [check_cache], by simp [write_cache]⟩

/-- C7: for every empty or whitespace-only city string, check performs no
input validation: the string is passed through the key derivation, and when
nothing is stored under the derived key the result is the ordinary
`{cached:false, data:null, reason:"not_found"}` body, not an input error. -/
theorem whitespace_city_not_found {α : Type} (store : Store α) (now : ℤ) (city : String)
    (hws : city.data.all (fun c => c.isWhitespace) = true)
    (hmiss : storeGet store (canonicalKey city) = none) :
    check_cache_store true store now city = notFoundResp := by
  rw [check_cache_store, storeRead, hmiss]
  simp [check_cache]

/-- C7 witness: checking the single-space city against the empty store
returns the not-found body. -/
theorem whitespace_city_not_found_witness :
    check_cache_store true ([] : Store ℕ) 0 " " = notFoundResp :=
  whitespace_city_not_found [] 0 " " (by decide) (by decide)

/-- C8 counterexample: under a tracer behaviour whose very first call (span
creation) raises, the check request fails with an escaped exception, while
under the no-op tracer the same request returns the not-found body; so a
tracing failure can change the business result, refuting the claim as
stated (the source guards none of its tracer calls). -/
theorem tracer_fault_changes_result :
    check_cache_traced (fun _ => some "SpanError") true (ReadResult.notFound (α := ℕ)) 0
      = Except.error ()
    ∧ check_cache_traced (fun _ => none) true (ReadResult.notFound (α := ℕ)) 0
      = Except.ok notFoundResp
    ∧ (Except.error () : Except Unit (CheckResponse ℕ)) ≠ Except.ok notFoundResp := by
  refine ⟨rfl, rfl, by simp⟩

/-- C8 (amended): for every tracer behaviour that does not raise — the
behaviour the OpenTelemetry API guarantees — the business results of check
and write are exactly those of the untraced operations: span creation and
attribute values never feed back into the cache outcome. -/
theorem nonraising_tracer_noninterference {α : Type} (tr : TracerOracle)
    (h : ∀ n, tr n = none) (cfg : Bool) (read : ReadResult α) (now : ℤ)
    (store : Store α) (fault : Option String) (t : ℤ) (city : String) (w : α) :
    check_cache_traced tr cfg read now = Except.ok (check_cache cfg read now)
    ∧ write_cache_traced tr cfg store fault t city w
        = Except.ok (write_cache cfg store fault t city w) := by
  constructor
  · cases cfg
    · simp [check_cache_traced, check_cache]
    · cases read <;> simp [check_cache_traced, check_cache, callRaises, h, checkExceptBlock]
  · cases cfg
    · simp [write_cache_traced, write_cache]
    · cases fault <;> simp [write_cache_traced, write_cache, callRaises, h]

/-- C8 witness: the no-op tracer instantiation — traced check and traced
write coincide with the untraced results on concrete inputs. -/
theorem nonraising_tracer_noninterference_witness :
    check_cache_traced noTracerFault true (ReadResult.notFound (α := ℕ)) 0
      = Except.ok (check_cache true ReadResult.notFound 0)
    ∧ write_cache_traced noTracerFault true ([] : Store ℕ) none 0 "x" 5
      = Except.ok (write_cache true [] none 0 "x" 5) :=
  nonraising_tracer_noninterference noTracerFault (fun _ => rfl) true
    ReadResult.notFound 0 [] none 0 "x" 5

/-- C9 counterexample: a record stored 7200 seconds ago is an expired miss
(the response has cached false, reason expired), yet the span carries
`cache.hit = true` and no `cache.miss_reason` attribute at all; so the claim
that every miss outcome carries a false hit boolean and a miss-reason tag
fails on the expired case. -/
theorem expired_span_hit_true :
    check_cache true (ReadResult.found ⟨"oslo", (3:ℕ), 0⟩) (7200 * USEC) = expiredResp 7200
    ∧ ("cache.hit", AttrVal.b true)
        ∈ check_attrs true (ReadResult.found ⟨"oslo", (3:ℕ), 0⟩) (7200 * USEC) "oslo"
    ∧ (check_attrs true (ReadResult.found ⟨"oslo", (3:ℕ), 0⟩) (7200 * USEC) "oslo").all
        (fun p => p.1 != "cache.miss_reason") = true := by
  refine ⟨by decide, by decide, by decide⟩

/-- C9 (amended): every traced check span carries the backend identifier, the
key, and the `cache.hit` boolean, where the hit boolean records whether a
document was found (not whether the outcome was a fresh hit): when a document
is found — fresh or expired — the span additionally carries the age and the
freshness boolean; on a clean not-found miss the hit boolean is false with
the miss-reason tag; on a read fault the hit boolean is false with the
error-class tag. -/
theorem check_span_attributes {α : Type} (read : ReadResult α) (now : ℤ) (city : String) :
    ("cache.backend", AttrVal.s "elasticsearch") ∈ check_attrs true read now city
    ∧ ("cache.key", AttrVal.s city) ∈ check_attrs true read now city
    ∧ (match read with
       | ReadResult.found rec =>
           ("cache.hit", AttrVal.b true) ∈ check_attrs true read now city
           ∧ ("cache.age_seconds", AttrVal.i (pyIntSec (now - rec.timestamp)))
               ∈ check_attrs true read now city
           ∧ ("cache.fresh", AttrVal.b (isFresh (now - rec.timestamp)))
               ∈ check_attrs true read now city
       | ReadResult.notFound =>
           ("cache.hit", AttrVal.b false) ∈ check_attrs true read now city
           ∧ ("cache.miss_reason", AttrVal.s "not_found") ∈ check_attrs true read now city
       | ReadResult.fault ename =>
           ("cache.hit", AttrVal.b false) ∈ check_attrs true read now city
           ∧ ("cache.error", AttrVal.s ename) ∈ check_attrs true read now city) := by
  cases read <;> simp [check_attrs]

/-- C10 counterexample: a record stored half a second in the future has a
negative age, and check does return cached true — but its `age_seconds` is 0,
which is not negative; so the claim that every future-dated record yields a
negative age value fails on this input. -/
theorem future_small_age_not_negative :
    ageSeconds (0 - 500000) < 0
    ∧ check_cache true (ReadResult.found ⟨"quito", (9:ℕ), 500000⟩) 0 = freshResp 9 0
    ∧ ¬ pyIntSec (0 - 500000) < 0 :=
  ⟨by norm_num [ageSeconds, USEC], by decide, by decide⟩

/-- C10 (amended): for every stored record whose timestamp lies in the future
(negative age), check returns cached true with `age_seconds` equal to the
truncation of the age toward zero, which is nonpositive, and strictly
negative exactly when the record lies at least one full second in the future;
the truncation agrees with the mathematical floor exactly on the whole-second
ages and exceeds it by one on the others. -/
theorem future_timestamp_fresh_trunc {α : Type} (w : α) (city : String) (ts now : ℤ)
    (hfut : now - ts < 0) :
    check_cache true (ReadResult.found ⟨city, w, ts⟩) now = freshResp w (pyIntSec (now - ts))
    ∧ pyIntSec (now - ts) ≤ 0
    ∧ (pyIntSec (now - ts) < 0 ↔ now - ts ≤ -USEC)
    ∧ (USEC ∣ (now - ts) → pyIntSec (now - ts) = ⌊ageSeconds (now - ts)⌋)
    ∧ (¬ USEC ∣ (now - ts) → pyIntSec (now - ts) = ⌊ageSeconds (now - ts)⌋ + 1) := by
  refine ⟨?_, pyIntSec_nonpos_of_nonpos (by omega), pyIntSec_neg_iff,
    fun h => pyIntSec_eq_floor_of_dvd h,
    fun h => pyIntSec_ne_floor_of_neg_not_dvd hfut h⟩
  have hf : isFresh (now - ts) = true := by
    simp only [isFresh, usec_eq, decide_eq_true_eq]; omega
  simp [check_cache, hf]

/-- C10 witness: a record stored 2.5 seconds in the future is a cached hit
whose `age_seconds` is the truncation of -2.5, namely -2. -/
theorem future_timestamp_fresh_trunc_witness :
    check_cache true (ReadResult.found ⟨"lima", (4:ℕ), 2500000⟩) 0 = freshResp 4 (-2) :=
  ((future_timestamp_fresh_trunc 4 "lima" 2500000 0 (by decide)).1).trans (by decide)

end WeatherCache
